import Mathlib

/-!
Shallow embedding of the Email-Validator repository (jyothipalla/Email-Validator).

Two near-identical pipelines exist in the source:
  * `src/mailmeter_csv.py` — embedded in namespace `Csv`
  * `src/streamlit_app.py` — embedded in namespace `App`

Network effects (DNS resolutions, SMTP connections) are modelled by explicit
environment records supplying each resolution's outcome, and the functions
additionally return a trace of the network operations they performed, so that
"no network attempt" claims are statable.  Python strings stay `String`,
Python `in` on strings becomes `strContains`, integers are `Int`.
-/

/-- Structural list-prefix test (kernel-reducible). -/
def isPrefixB : List Char → List Char → Bool
  | [], _ => true
  | _ :: _, [] => false
  | a :: xs, b :: ys => a == b && isPrefixB xs ys

/-- Structural contiguous-sublist test (kernel-reducible). -/
def isSubListB (needle : List Char) : List Char → Bool
  | [] => needle.isEmpty
  | b :: ys => isPrefixB needle (b :: ys) || isSubListB needle ys

/-- Python's `needle in hay` substring test on strings. -/
def strContains (hay needle : String) : Bool :=
  isSubListB needle.toList hay.toList

/-- Python's `str.strip()`: drop leading and trailing whitespace. -/
def pyStrip (s : String) : String :=
  String.mk (((s.toList.dropWhile Char.isWhitespace).reverse.dropWhile
    Char.isWhitespace).reverse)

/-- Python's `str.lower()` (ASCII range, which covers the hostnames and
vendor labels this program compares). -/
def pyLower (s : String) : String :=
  String.mk (s.toList.map Char.toLower)

/-- The result dictionary built by `get_dns_data` in both variants:
`{"mx": .., "spf": .., "dkim": .., "dmarc": .., "server": ..}`. -/
structure DnsRes where
  mx : String
  spf : String
  dkim : String
  dmarc : String
  server : String
deriving DecidableEq, Repr

/-- Outcomes of the individual DNS resolutions `get_dns_data` performs for one
domain: `none` models any resolver exception (NXDOMAIN, timeout, no answer). -/
structure DnsEnv where
  /-- On MX success, the first exchange hostname `str(mx_query[0].exchange)`. -/
  mxHost : Option String
  /-- On TXT success for the bare domain, the records' string forms. -/
  txt : Option (List String)
  /-- Whether the TXT resolution at `_dmarc.<domain>` succeeds. -/
  dmarcOk : Bool
  /-- For a selector `s`, the TXT answer at `s._domainkey.<domain>` on
  success, `none` on any resolver exception. -/
  dkimTxt : String → Option String

/-- Outcomes of the network steps `check_smtp` may perform: the fresh MX
resolution and the SMTP handshake against the resolved host. -/
structure SmtpEnv where
  /-- On MX success, the first exchange hostname. -/
  mxHost : Option String
  /-- Connecting plus HELO / MAIL / RCPT against a host: the RCPT reply code
  on a completed handshake, `none` for any connection/timeout/protocol error. -/
  rcptCode : String → Option Nat

/-- A network operation, recorded in traces. -/
inductive NetOp where
  | dnsAudit
  | smtpResolveMX
  | smtpConnect
deriving DecidableEq, Repr

/-- The 9-column row `[EMAIL, SPF, SMTP, DKIM, DMARC, MX, STATUS, SERVER, SCORE]`
returned by `process_row` in both variants. -/
structure AuditRecord where
  email : String
  spf : String
  smtp : String
  dkim : String
  dmarc : String
  mx : String
  status : String
  server : String
  score : Int
deriving DecidableEq, Repr

/-- `email.split('@')[0]` — the characters before the first `@` (the whole
string when no `@` occurs), used by the digit-prefix penalty. -/
def localPart (email : String) : String :=
  String.mk (email.toList.takeWhile (fun c => !(c == '@')))

/-- Python `re.match(r'^\d+', s)` succeeds iff `s` starts with a digit. -/
def digitPrefix (s : String) : Bool :=
  match s.toList with
  | [] => false
  | c :: _ => c.isDigit

namespace Csv

/-- The DKIM selector loop of `mailmeter_csv.get_dns_data`: try each selector
in order, `break` (returning PASS) on the first successful TXT resolution;
the answer's content is never inspected. -/
def dkimLoop (env : DnsEnv) : List String → String
  | [] => "FAIL"
  | s :: rest => if (env.dkimTxt s).isSome then "PASS" else dkimLoop env rest

/-- The fixed selector list of `mailmeter_csv.get_dns_data`. -/
def selectors : List String := ["google", "default", "mail", "k1"]

/-- `mailmeter_csv.get_dns_data`: MX + vendor classification, SPF, DMARC and
DKIM checks, each independently degrading to FAIL on resolver failure. -/
def get_dns_data (env : DnsEnv) : DnsRes :=
  let mxServer : String × String :=
    match env.mxHost with
    | some exch =>
      let primary_mx := pyLower exch
      if strContains primary_mx "google" then ("PASS", "Google Workspace")
      else if strContains primary_mx "outlook" then ("PASS", "Microsoft 365")
      else ("PASS", "Private SMTP")
    | none => ("FAIL", "Unknown")
  let spf : String :=
    match env.txt with
    | some rs => if rs.any (fun r => strContains r "v=spf1") then "PASS" else "FAIL"
    | none => "FAIL"
  let dmarc : String := if env.dmarcOk then "PASS" else "FAIL"
  let dkim : String := dkimLoop env selectors
  ⟨mxServer.1, spf, dkim, dmarc, mxServer.2⟩

/-- `mailmeter_csv.check_smtp`, instrumented with a trace of the network
operations performed.  Returns PROTECTED with no network activity when the
server classification contains "Google" or "Microsoft". -/
def check_smtp (env : SmtpEnv) (email domain server_type : String) :
    String × List NetOp :=
  let _ := email
  let _ := domain
  if strContains server_type "Google" || strContains server_type "Microsoft" then
    ("PROTECTED", [])
  else
    match env.mxHost with
    | none => ("UNVERIFIABLE", [NetOp.smtpResolveMX])
    | some mail_server =>
      match env.rcptCode mail_server with
      | none => ("UNVERIFIABLE", [NetOp.smtpResolveMX, NetOp.smtpConnect])
      | some code =>
        (if code == 250 then "AVAILABLE" else "NOT_FOUND",
          [NetOp.smtpResolveMX, NetOp.smtpConnect])

/-- Per-row environment: the syntax-validation verdict for the row's address
(`.ok domain` when `validate_email` succeeds), the DNS and SMTP resolution
outcomes, and a fault flag modelling any unexpected exception raised inside
the `try` block after validation succeeded. -/
structure RowEnv where
  validate : Except Unit String
  dns : DnsEnv
  smtp : SmtpEnv
  internalFault : Bool

/-- The hardcoded record of `mailmeter_csv.process_row`'s `except` branch:
`[email, "FAIL", "INVALID", "FAIL", "FAIL", "FAIL", "Syntax Error", "N/A", 0]`. -/
def exceptRecord (email : String) : AuditRecord :=
  ⟨email, "FAIL", "INVALID", "FAIL", "FAIL", "FAIL", "Syntax Error", "N/A", 0⟩

/-- The body of `mailmeter_csv.process_row`'s `try` block. -/
def process_row_try (env : RowEnv) (email : String) :
    Except Unit AuditRecord × List NetOp :=
  match env.validate with
  | .error e => (.error e, [])
  | .ok _domain =>
    let dns_data := get_dns_data env.dns
    let smtpRes := check_smtp env.smtp email _domain dns_data.server
    let smtp_status := smtpRes.1
    let ops := NetOp.dnsAudit :: smtpRes.2
    if env.internalFault then (.error (), ops)
    else
      let score : Int :=
        (if dns_data.mx == "PASS" then 20 else 0)
        + (if dns_data.spf == "PASS" then 10 else 0)
        + (if dns_data.dkim == "PASS" then 10 else 0)
        + (if dns_data.dmarc == "PASS" then 10 else 0)
        + (if smtp_status == "AVAILABLE" || smtp_status == "PROTECTED" then 50 else 0)
        - (if digitPrefix (localPart email) then 30 else 0)
      (.ok ⟨email, dns_data.spf, smtp_status, dns_data.dkim, dns_data.dmarc,
          dns_data.mx, "Valid Format", dns_data.server, max 0 score⟩, ops)

/-- `mailmeter_csv.process_row`: `None` for an empty row or empty first cell,
otherwise the try body with the `except` fallback record. -/
def process_row (env : RowEnv) (row : List String) :
    Option AuditRecord × List NetOp :=
  match row with
  | [] => (none, [])
  | cell :: _ =>
    if cell == "" then (none, [])
    else
      let email := pyStrip cell
      match process_row_try env email with
      | (.ok r, ops) => (some r, ops)
      | (.error _, ops) => (some (exceptRecord email), ops)

/-- The orchestrator: `executor.map(process_row, rows)` — an order-preserving
map of `process_row` over the input rows (each row sees its own network
environment, supplied by `envOf`). -/
def run_audit (envOf : List String → RowEnv) (rows : List (List String)) :
    List (Option AuditRecord × List NetOp) :=
  rows.map (fun row => process_row (envOf row) row)

/-- `[r for r in results if r is not None and r[-1] > 50]`. -/
def valid_data (results : List (Option AuditRecord)) : List AuditRecord :=
  results.filterMap (fun o => o.bind (fun r => if r.score > 50 then some r else none))

/-- `[r for r in results if r is not None and 0 < r[-1] <= 50]`. -/
def risky_data (results : List (Option AuditRecord)) : List AuditRecord :=
  results.filterMap (fun o => o.bind
    (fun r => if 0 < r.score ∧ r.score ≤ 50 then some r else none))

/-- `len([r for r in results if r is not None and r[-1] == 0])`. -/
def deleted_count (results : List (Option AuditRecord)) : Nat :=
  (results.filterMap (fun o => o.bind
    (fun r => if r.score = 0 then some r else none))).length

end Csv

/-- The Python exceptions distinguished by `streamlit_app.process_row`'s two
`except` clauses. -/
inductive PyExc where
  | emailNotValid
  | other
deriving DecidableEq, Repr

namespace App

/-- The DKIM selector loop of `streamlit_app.get_dns_data`: `break` on the
first successful TXT resolution; the answer's content is never inspected. -/
def dkimLoop (env : DnsEnv) : List String → String
  | [] => "FAIL"
  | s :: rest => if (env.dkimTxt s).isSome then "PASS" else dkimLoop env rest

/-- The fixed selector list of `streamlit_app.get_dns_data`. -/
def selectors : List String := ["google", "default", "mail", "k1", "sig1"]

/-- `streamlit_app.get_dns_data`: identical to the CSV variant except for the
selector list (and an early `break` in the SPF loop that does not change the
result). -/
def get_dns_data (env : DnsEnv) : DnsRes :=
  let mxServer : String × String :=
    match env.mxHost with
    | some exch =>
      let primary_mx := pyLower exch
      if strContains primary_mx "google" then ("PASS", "Google Workspace")
      else if strContains primary_mx "outlook" then ("PASS", "Microsoft 365")
      else ("PASS", "Private SMTP")
    | none => ("FAIL", "Unknown")
  let spf : String :=
    match env.txt with
    | some rs => if rs.any (fun r => strContains r "v=spf1") then "PASS" else "FAIL"
    | none => "FAIL"
  let dmarc : String := if env.dmarcOk then "PASS" else "FAIL"
  let dkim : String := dkimLoop env selectors
  ⟨mxServer.1, spf, dkim, dmarc, mxServer.2⟩

/-- `streamlit_app.check_smtp`, instrumented with a trace of network
operations: `any(x in server for x in ["Google", "Microsoft"])` short-circuits
to PROTECTED with no network activity. -/
def check_smtp (env : SmtpEnv) (email domain server : String) :
    String × List NetOp :=
  let _ := email
  let _ := domain
  if ["Google", "Microsoft"].any (fun x => strContains server x) then
    ("PROTECTED", [])
  else
    match env.mxHost with
    | none => ("UNVERIFIABLE", [NetOp.smtpResolveMX])
    | some mx_host =>
      match env.rcptCode mx_host with
      | none => ("UNVERIFIABLE", [NetOp.smtpResolveMX, NetOp.smtpConnect])
      | some code =>
        (if code == 250 then "AVAILABLE" else "NOT_FOUND",
          [NetOp.smtpResolveMX, NetOp.smtpConnect])

/-- Per-address environment for `streamlit_app.process_row`: the
syntax-validation verdict, the DNS and SMTP resolution outcomes, and a fault
flag modelling an unexpected exception after validation. -/
structure RowEnv where
  validate : Except PyExc String
  dns : DnsEnv
  smtp : SmtpEnv
  internalFault : Bool

/-- The record of `streamlit_app.process_row`'s `except EmailNotValidError`
branch. -/
def syntaxErrorRecord (email : String) : AuditRecord :=
  ⟨email, "FAIL", "INVALID", "FAIL", "FAIL", "FAIL", "Syntax Error", "N/A", 0⟩

/-- The record of `streamlit_app.process_row`'s `except Exception` branch. -/
def internalErrorRecord (email : String) : AuditRecord :=
  ⟨email, "ERROR", "UNKNOWN", "ERROR", "ERROR", "ERROR", "Internal Error", "N/A", 0⟩

/-- `streamlit_app.process_row`: scoring gives AVAILABLE +50, PROTECTED +40
and applies no digit-prefix penalty. -/
def process_row (env : RowEnv) (email0 : String) :
    AuditRecord × List NetOp :=
  let email := pyStrip email0
  match env.validate with
  | .error .emailNotValid => (syntaxErrorRecord email, [])
  | .error .other => (internalErrorRecord email, [])
  | .ok dom =>
    let dns_data := get_dns_data env.dns
    let smtpRes := check_smtp env.smtp email dom dns_data.server
    let smtp_stat := smtpRes.1
    let ops := NetOp.dnsAudit :: smtpRes.2
    if env.internalFault then (internalErrorRecord email, ops)
    else
      let score : Int :=
        (if dns_data.mx == "PASS" then 20 else 0)
        + (if dns_data.spf == "PASS" then 10 else 0)
        + (if dns_data.dkim == "PASS" then 10 else 0)
        + (if dns_data.dmarc == "PASS" then 10 else 0)
        + (if smtp_stat == "AVAILABLE" then 50
           else if smtp_stat == "PROTECTED" then 40 else 0)
      (⟨email, dns_data.spf, smtp_stat, dns_data.dkim, dns_data.dmarc,
          dns_data.mx, "Valid Format", dns_data.server, max 0 score⟩, ops)

/-- The orchestrator: `executor.map(process_row, emails)` — an
order-preserving map over the input addresses. -/
def run_audit (envOf : String → RowEnv) (emails : List String) :
    List (AuditRecord × List NetOp) :=
  emails.map (fun e => process_row (envOf e) e)

/-- `res_df[res_df["SCORE"] >= 70]`. -/
def valid_df (results : List AuditRecord) : List AuditRecord :=
  results.filter (fun r => 70 ≤ r.score)

/-- `res_df[(res_df["SCORE"] < 70) & (res_df["SCORE"] > 0)]`. -/
def risky_df (results : List AuditRecord) : List AuditRecord :=
  results.filter (fun r => r.score < 70 && 0 < r.score)

/-- `len(res_df[res_df['SCORE'] == 0])`. -/
def dead_count (results : List AuditRecord) : Nat :=
  (results.filter (fun r => r.score = 0)).length

end App

/-- `Modelled from the spec`: the weight table of the Scorer as the spec
states it (MX PASS +20; SPF PASS +10; DKIM PASS +10; DMARC PASS +10; SMTP
Available +50; SMTP Protected +40; NotFound/Unverifiable +0), for comparison
with the scores the two `process_row` variants actually compute. -/
def specWeightSum (d : DnsRes) (smtp : String) : Int :=
  (if d.mx = "PASS" then 20 else 0)
  + (if d.spf = "PASS" then 10 else 0)
  + (if d.dkim = "PASS" then 10 else 0)
  + (if d.dmarc = "PASS" then 10 else 0)
  + (if smtp = "AVAILABLE" then 50 else if smtp = "PROTECTED" then 40 else 0)

/-- `Modelled from the spec`: the vendor classification as the claim states
it — contains "google" → Google Workspace; contains "outlook" or "microsoft"
→ Microsoft 365; otherwise Private SMTP — for comparison with the
classification `get_dns_data` actually performs. -/
def specVendor (exchangeHost : String) : String :=
  let h := pyLower exchangeHost
  if strContains h "google" then "Google Workspace"
  else if strContains h "outlook" || strContains h "microsoft" then "Microsoft 365"
  else "Private SMTP"

/-- `Modelled from the spec`: the DKIM PASS criterion as the claim states it —
some selector's TXT resolution succeeds AND the answer contains "v=DKIM1" or
"p=". -/
def specDkimPass (env : DnsEnv) (sels : List String) : Bool :=
  sels.any (fun s =>
    match env.dkimTxt s with
    | some ans => strContains ans "v=DKIM1" || strContains ans "p="
    | none => false)

/-! ## Concrete environments used by counterexamples and witnesses -/

/-- A DNS environment whose first MX exchange hostname contains "microsoft"
but neither "outlook" nor "google"; every other lookup fails. -/
def microsoftDnsEnv : DnsEnv :=
  ⟨some "mx1.microsoft-corp.net", none, false, fun _ => none⟩

/-- A DNS environment where the selector `google` resolves to a TXT answer
containing neither "v=DKIM1" nor "p="; every other lookup fails. -/
def junkDkimEnv : DnsEnv :=
  ⟨none, none, false, fun s => if s = "google" then some "hello world" else none⟩

/-- A row environment for `bob@gmail.com`: syntax validation succeeds, MX
resolves to a Google host, every other lookup fails. -/
def googleRowEnv : Csv.RowEnv :=
  ⟨.ok "gmail.com", ⟨some "aspmx.l.google.com", none, false, fun _ => none⟩,
    ⟨none, fun _ => none⟩, false⟩

/-- The streamlit-variant row environment matching `googleRowEnv`. -/
def googleRowEnvApp : App.RowEnv :=
  ⟨.ok "gmail.com", ⟨some "aspmx.l.google.com", none, false, fun _ => none⟩,
    ⟨none, fun _ => none⟩, false⟩

/-! ## Helper lemmas -/

/-- The CSV-variant DKIM loop passes iff some selector's resolution succeeds. -/
theorem Csv.dkimLoop_pass_iff_csv (env : DnsEnv) (sels : List String) :
    Csv.dkimLoop env sels = "PASS" ↔ sels.any (fun s => (env.dkimTxt s).isSome) := by
  induction sels with
  | nil => simp [Csv.dkimLoop]
  | cons s rest ih =>
    by_cases h : (env.dkimTxt s).isSome <;>
      simp [Csv.dkimLoop, h, ih]

/-- The streamlit-variant DKIM loop passes iff some selector's resolution
succeeds. -/
theorem App.dkimLoop_pass_iff_app (env : DnsEnv) (sels : List String) :
    App.dkimLoop env sels = "PASS" ↔ sels.any (fun s => (env.dkimTxt s).isSome) := by
  induction sels with
  | nil => simp [App.dkimLoop]
  | cons s rest ih =>
    by_cases h : (env.dkimTxt s).isSome <;>
      simp [App.dkimLoop, h, ih]

/-- Decomposition of the CSV variant's single SMTP weight (+50 for AVAILABLE
or PROTECTED alike) against the spec's split weights (+50 / +40). -/
theorem smtp_weight_csv_split (smtp : String) :
    (if smtp == "AVAILABLE" || smtp == "PROTECTED" then (50 : Int) else 0)
      = (if smtp = "AVAILABLE" then (50 : Int)
         else if smtp = "PROTECTED" then 40 else 0)
        + (if smtp = "PROTECTED" then 10 else 0) := by
  by_cases h1 : smtp = "AVAILABLE"
  · subst h1; decide
  · by_cases h2 : smtp = "PROTECTED"
    · subst h2; decide
    · simp [h1, h2]

/-- Reference record: the CSV-variant audit of `bob@gmail.com` under
`googleRowEnv`. -/
def bobRecordCsv : AuditRecord :=
  ⟨"bob@gmail.com", "FAIL", "PROTECTED", "FAIL", "FAIL", "PASS",
    "Valid Format", "Google Workspace", 70⟩

/-- Reference record: the streamlit-variant audit of `bob@gmail.com` under
`googleRowEnvApp`. -/
def bobRecordApp : AuditRecord :=
  ⟨"bob@gmail.com", "FAIL", "PROTECTED", "FAIL", "FAIL", "PASS",
    "Valid Format", "Google Workspace", 60⟩

/-! ## Claims -/

/-- C2 (counterexample): the claim says a first-exchange hostname containing
"microsoft" is classified Microsoft 365, but both `get_dns_data` variants test
only "outlook" and classify `mx1.microsoft-corp.net` as Private SMTP. -/
theorem C2_vendor_counterexample :
    microsoftDnsEnv.mxHost = some "mx1.microsoft-corp.net" ∧
    (Csv.get_dns_data microsoftDnsEnv).server = "Private SMTP" ∧
    (App.get_dns_data microsoftDnsEnv).server = "Private SMTP" ∧
    specVendor "mx1.microsoft-corp.net" = "Microsoft 365" ∧
    (Csv.get_dns_data microsoftDnsEnv).server ≠ specVendor "mx1.microsoft-corp.net" :=
  ⟨rfl, by decide, by decide, by decide, by decide⟩

/-- C2 (amended): when MX resolution succeeds, both variants classify the
vendor on the lowercase first-exchange hostname as: contains "google" →
Google Workspace; otherwise contains "outlook" → Microsoft 365; otherwise
Private SMTP ("microsoft" alone does not trigger Microsoft 365). -/
theorem C2_vendor_amended (env : DnsEnv) (host : String)
    (h : env.mxHost = some host) :
    (Csv.get_dns_data env).server =
      (if strContains (pyLower host) "google" then "Google Workspace"
       else if strContains (pyLower host) "outlook" then "Microsoft 365"
       else "Private SMTP") ∧
    (App.get_dns_data env).server =
      (if strContains (pyLower host) "google" then "Google Workspace"
       else if strContains (pyLower host) "outlook" then "Microsoft 365"
       else "Private SMTP") := by
  constructor <;>
    · simp only [Csv.get_dns_data, App.get_dns_data, h]
      split_ifs <;> rfl

/-- C2 (witness for the amended theorem). -/
theorem C2_vendor_amended_witness :
    (Csv.get_dns_data microsoftDnsEnv).server =
      (if strContains (pyLower "mx1.microsoft-corp.net") "google" then "Google Workspace"
       else if strContains (pyLower "mx1.microsoft-corp.net") "outlook" then "Microsoft 365"
       else "Private SMTP") ∧
    (App.get_dns_data microsoftDnsEnv).server =
      (if strContains (pyLower "mx1.microsoft-corp.net") "google" then "Google Workspace"
       else if strContains (pyLower "mx1.microsoft-corp.net") "outlook" then "Microsoft 365"
       else "Private SMTP") :=
  C2_vendor_amended microsoftDnsEnv "mx1.microsoft-corp.net" rfl

/-- C4 (counterexample): the claim says DKIM passes only when the answer
contains "v=DKIM1" or "p=", but both variants mark PASS on the bare success
of a selector's TXT resolution: with the answer "hello world" at selector
`google`, the code passes while the claimed criterion fails. -/
theorem C4_dkim_counterexample :
    junkDkimEnv.dkimTxt "google" = some "hello world" ∧
    (Csv.get_dns_data junkDkimEnv).dkim = "PASS" ∧
    (App.get_dns_data junkDkimEnv).dkim = "PASS" ∧
    specDkimPass junkDkimEnv Csv.selectors = false ∧
    specDkimPass junkDkimEnv App.selectors = false :=
  ⟨by decide, by decide, by decide, by decide, by decide⟩

/-- C4 (amended): in both variants `dkim = PASS` iff some selector in the
fixed ordered list has a successful TXT resolution — the answer's content is
never inspected, the loop stops at the first success, and no matching
selector or diagnostic is recorded in the result. -/
theorem C4_dkim_amended (env : DnsEnv) :
    ((Csv.get_dns_data env).dkim = "PASS" ↔
      Csv.selectors.any (fun s => (env.dkimTxt s).isSome)) ∧
    ((App.get_dns_data env).dkim = "PASS" ↔
      App.selectors.any (fun s => (env.dkimTxt s).isSome)) :=
  ⟨Csv.dkimLoop_pass_iff_csv env Csv.selectors, App.dkimLoop_pass_iff_app env App.selectors⟩

/-- C5: whenever the classified vendor is Google Workspace or Microsoft 365,
both `check_smtp` variants return PROTECTED immediately, and the network trace
is empty — no MX resolution and no SMTP connection happens, for every possible
network environment. -/
theorem C5_protected_no_probe (cenv aenv : SmtpEnv) (email domain server : String)
    (h : server = "Google Workspace" ∨ server = "Microsoft 365") :
    Csv.check_smtp cenv email domain server = ("PROTECTED", []) ∧
    App.check_smtp aenv email domain server = ("PROTECTED", []) := by
  rcases h with h | h <;> subst h <;> exact ⟨rfl, rfl⟩

/-- C5 (witness). -/
theorem C5_protected_no_probe_witness :
    Csv.check_smtp ⟨none, fun _ => none⟩ "a@b.c" "b.c" "Google Workspace"
        = ("PROTECTED", []) ∧
    App.check_smtp ⟨none, fun _ => none⟩ "a@b.c" "b.c" "Google Workspace"
        = ("PROTECTED", []) :=
  C5_protected_no_probe ⟨none, fun _ => none⟩ ⟨none, fun _ => none⟩
    "a@b.c" "b.c" "Google Workspace" (Or.inl rfl)

/-- C6: when syntax validation rejects the address, both variants
short-circuit to the fixed syntax-error record — status "Syntax Error",
mx = spf = dkim = dmarc = FAIL, score 0 — and the network trace is empty, so
the DNS Auditor and SMTP Prober are never invoked. -/
theorem C6_syntax_shortcircuit (cenv : Csv.RowEnv) (aenv : App.RowEnv)
    (cell email : String) (rest : List String)
    (hcell : ¬ cell = "")
    (hc : cenv.validate = .error ())
    (ha : aenv.validate = .error .emailNotValid) :
    Csv.process_row cenv (cell :: rest) = (some (Csv.exceptRecord (pyStrip cell)), []) ∧
    App.process_row aenv email = (App.syntaxErrorRecord (pyStrip email), []) ∧
    (Csv.exceptRecord (pyStrip cell)).mx = "FAIL" ∧
    (Csv.exceptRecord (pyStrip cell)).spf = "FAIL" ∧
    (Csv.exceptRecord (pyStrip cell)).dkim = "FAIL" ∧
    (Csv.exceptRecord (pyStrip cell)).dmarc = "FAIL" ∧
    (Csv.exceptRecord (pyStrip cell)).score = 0 ∧
    (Csv.exceptRecord (pyStrip cell)).status = "Syntax Error" ∧
    (App.syntaxErrorRecord (pyStrip email)).mx = "FAIL" ∧
    (App.syntaxErrorRecord (pyStrip email)).spf = "FAIL" ∧
    (App.syntaxErrorRecord (pyStrip email)).dkim = "FAIL" ∧
    (App.syntaxErrorRecord (pyStrip email)).dmarc = "FAIL" ∧
    (App.syntaxErrorRecord (pyStrip email)).score = 0 ∧
    (App.syntaxErrorRecord (pyStrip email)).status = "Syntax Error" := by
  refine ⟨?_, ?_, rfl, rfl, rfl, rfl, rfl, rfl, rfl, rfl, rfl, rfl, rfl, rfl⟩
  · simp [Csv.process_row, Csv.process_row_try, hc, hcell]
  · simp [App.process_row, ha]

/-- C6 (witness). -/
theorem C6_syntax_shortcircuit_witness :
    Csv.process_row ⟨.error (), microsoftDnsEnv, ⟨none, fun _ => none⟩, false⟩
        ["not-an-email"] = (some (Csv.exceptRecord (pyStrip "not-an-email")), []) ∧
    App.process_row ⟨.error .emailNotValid, microsoftDnsEnv, ⟨none, fun _ => none⟩, false⟩
        "not-an-email" = (App.syntaxErrorRecord (pyStrip "not-an-email"), []) ∧
    (Csv.exceptRecord (pyStrip "not-an-email")).mx = "FAIL" ∧
    (Csv.exceptRecord (pyStrip "not-an-email")).spf = "FAIL" ∧
    (Csv.exceptRecord (pyStrip "not-an-email")).dkim = "FAIL" ∧
    (Csv.exceptRecord (pyStrip "not-an-email")).dmarc = "FAIL" ∧
    (Csv.exceptRecord (pyStrip "not-an-email")).score = 0 ∧
    (Csv.exceptRecord (pyStrip "not-an-email")).status = "Syntax Error" ∧
    (App.syntaxErrorRecord (pyStrip "not-an-email")).mx = "FAIL" ∧
    (App.syntaxErrorRecord (pyStrip "not-an-email")).spf = "FAIL" ∧
    (App.syntaxErrorRecord (pyStrip "not-an-email")).dkim = "FAIL" ∧
    (App.syntaxErrorRecord (pyStrip "not-an-email")).dmarc = "FAIL" ∧
    (App.syntaxErrorRecord (pyStrip "not-an-email")).score = 0 ∧
    (App.syntaxErrorRecord (pyStrip "not-an-email")).status = "Syntax Error" :=
  C6_syntax_shortcircuit
    ⟨.error (), microsoftDnsEnv, ⟨none, fun _ => none⟩, false⟩
    ⟨.error .emailNotValid, microsoftDnsEnv, ⟨none, fun _ => none⟩, false⟩
    "not-an-email" "not-an-email" [] (by decide) rfl rfl

/-- C9: in the CSV variant, an unexpected exception after successful syntax
validation yields exactly the record a syntax-validation failure yields —
the hardcoded "Syntax Error" fallback — so the status does not imply a parse
failure. -/
theorem C9_fault_masquerade (env : Csv.RowEnv) (cell dom : String)
    (rest : List String)
    (hcell : ¬ cell = "") (hval : env.validate = .ok dom)
    (hf : env.internalFault = true) :
    (Csv.process_row env (cell :: rest)).1 = some (Csv.exceptRecord (pyStrip cell)) ∧
    (Csv.process_row { env with validate := .error () } (cell :: rest)).1
      = some (Csv.exceptRecord (pyStrip cell)) ∧
    (Csv.exceptRecord (pyStrip cell)).status = "Syntax Error" := by
  refine ⟨?_, ?_, rfl⟩ <;>
    simp [Csv.process_row, Csv.process_row_try, hval, hf, hcell]

/-- C9 (witness). -/
theorem C9_fault_masquerade_witness :
    (Csv.process_row ⟨.ok "gmail.com", googleRowEnv.dns, googleRowEnv.smtp, true⟩
        ["bob@gmail.com"]).1 = some (Csv.exceptRecord (pyStrip "bob@gmail.com")) ∧
    (Csv.process_row
        { (⟨.ok "gmail.com", googleRowEnv.dns, googleRowEnv.smtp, true⟩ : Csv.RowEnv)
          with validate := .error () }
        ["bob@gmail.com"]).1 = some (Csv.exceptRecord (pyStrip "bob@gmail.com")) ∧
    (Csv.exceptRecord (pyStrip "bob@gmail.com")).status = "Syntax Error" :=
  C9_fault_masquerade ⟨.ok "gmail.com", googleRowEnv.dns, googleRowEnv.smtp, true⟩
    "bob@gmail.com" "gmail.com" [] (by decide) rfl rfl

/-- C10: in the CSV variant, a blank row — an empty row or a row whose first
cell is the empty string — maps to `None`, and a `None` entry contributes to
none of the Valid group, the Risky group, or the Dead count. -/
theorem C10_blank_rows (env : Csv.RowEnv) (rest : List String)
    (results : List (Option AuditRecord)) :
    (Csv.process_row env []).1 = none ∧
    (Csv.process_row env ("" :: rest)).1 = none ∧
    Csv.valid_data (none :: results) = Csv.valid_data results ∧
    Csv.risky_data (none :: results) = Csv.risky_data results ∧
    Csv.deleted_count (none :: results) = Csv.deleted_count results := by
  refine ⟨rfl, ?_, ?_, ?_, ?_⟩
  · simp [Csv.process_row]
  · simp [Csv.valid_data]
  · simp [Csv.risky_data]
  · simp [Csv.deleted_count]

/-- C1 (counterexample): auditing `bob@gmail.com` in the CSV variant under an
environment where MX resolves to a Google host, the SMTP outcome is PROTECTED
and the score is 70 (MX +20, SMTP +50), while the claimed weight table with
Protected +40 yields 60: Protected does not contribute exactly 40 there. -/
theorem C1_weights_counterexample :
    (Csv.process_row googleRowEnv ["bob@gmail.com"]).1.map AuditRecord.smtp
        = some "PROTECTED" ∧
    (Csv.process_row googleRowEnv ["bob@gmail.com"]).1.map AuditRecord.score
        = some 70 ∧
    max 0 (specWeightSum (Csv.get_dns_data googleRowEnv.dns) "PROTECTED") = 60 :=
  ⟨by decide, by decide, by decide⟩

/-- C1 (amended): the streamlit variant's score is exactly
max(0, Σ claimed weights) with Protected +40; the CSV variant's score is
max(0, Σ claimed weights + 10·[Protected] − 30·[digit-prefix local part]) —
there Protected contributes 50, the same as Available, and the −30
digit-prefix penalty applies. -/
theorem C1_weights_amended (cenv : Csv.RowEnv) (aenv : App.RowEnv)
    (cell dom1 dom2 email : String) (rest : List String)
    (hc1 : cenv.validate = .ok dom1) (hc2 : cenv.internalFault = false)
    (hc3 : ¬ cell = "")
    (ha1 : aenv.validate = .ok dom2) (ha2 : aenv.internalFault = false) :
    (Csv.process_row cenv (cell :: rest)).1.map AuditRecord.score =
      some (max 0 (specWeightSum (Csv.get_dns_data cenv.dns)
          (Csv.check_smtp cenv.smtp (pyStrip cell) dom1
            (Csv.get_dns_data cenv.dns).server).1
        + (if (Csv.check_smtp cenv.smtp (pyStrip cell) dom1
              (Csv.get_dns_data cenv.dns).server).1 = "PROTECTED"
           then 10 else 0)
        - (if digitPrefix (localPart (pyStrip cell)) then 30 else 0))) ∧
    (App.process_row aenv email).1.score =
      max 0 (specWeightSum (App.get_dns_data aenv.dns)
        (App.check_smtp aenv.smtp (pyStrip email) dom2
          (App.get_dns_data aenv.dns).server).1) := by
  constructor
  · simp only [Csv.process_row, Csv.process_row_try, hc1, hc2, hc3,
      if_false, Bool.false_eq_true]
    rw [if_neg (by simpa using hc3)]
    rw [smtp_weight_csv_split]
    simp only [specWeightSum, beq_iff_eq, Option.map_some', Option.some.injEq]
    congr 1
    ring
  · simp only [App.process_row, ha1, ha2, Bool.false_eq_true, if_false]
    simp only [specWeightSum, beq_iff_eq]

/-- C1 (witness for the amended theorem). -/
theorem C1_weights_amended_witness :
    (Csv.process_row googleRowEnv ["bob@gmail.com"]).1.map AuditRecord.score
        = some 70 ∧
    (App.process_row googleRowEnvApp "bob@gmail.com").1.score = 60 := by
  have h := C1_weights_amended googleRowEnv googleRowEnvApp "bob@gmail.com"
    "gmail.com" "gmail.com" "bob@gmail.com" [] rfl rfl (by decide) rfl rfl
  exact ⟨h.1.trans (by decide), h.2.trans (by decide)⟩

/-- C8: both orchestrators — `executor.map(process_row, ·)` in each variant —
return one output per input, in input order: the output has the input's
length and the i-th output is the audit of the i-th input. -/
theorem C8_order_preserved (cEnvOf : List String → Csv.RowEnv)
    (aEnvOf : String → App.RowEnv)
    (rows : List (List String)) (emails : List String) :
    (Csv.run_audit cEnvOf rows).length = rows.length ∧
    (∀ i : Nat, (Csv.run_audit cEnvOf rows)[i]?
        = (rows[i]?).map (fun row => Csv.process_row (cEnvOf row) row)) ∧
    (App.run_audit aEnvOf emails).length = emails.length ∧
    (∀ i : Nat, (App.run_audit aEnvOf emails)[i]?
        = (emails[i]?).map (fun e => App.process_row (aEnvOf e) e)) := by
  refine ⟨by simp [Csv.run_audit], fun i => ?_, by simp [App.run_audit],
    fun i => ?_⟩
  · simp [Csv.run_audit, List.getElem?_map]
  · simp [App.run_audit, List.getElem?_map]

/-- Any record the CSV try-body returns successfully has score in [0, 100]. -/
theorem Csv.try_score_bounds (env : Csv.RowEnv) (email : String)
    (r : AuditRecord) (ops : List NetOp)
    (h : Csv.process_row_try env email = (.ok r, ops)) :
    0 ≤ r.score ∧ r.score ≤ 100 := by
  rcases hv : env.validate with e | dom
  · simp [Csv.process_row_try, hv] at h
  · rcases hf : env.internalFault
    · simp only [Csv.process_row_try, hv, hf, Bool.false_eq_true, if_false,
        Prod.mk.injEq, Except.ok.injEq] at h
      obtain ⟨rfl, -⟩ := h
      refine ⟨le_max_left 0 _, max_le (by norm_num) ?_⟩
      split_ifs <;> omega
    · simp [Csv.process_row_try, hv, hf] at h

/-- Any record the CSV `process_row` returns has score in [0, 100]. -/
theorem Csv.row_score_bounds_csv (env : Csv.RowEnv) (row : List String)
    (r : AuditRecord) (ops : List NetOp)
    (h : Csv.process_row env row = (some r, ops)) :
    0 ≤ r.score ∧ r.score ≤ 100 := by
  rcases row with _ | ⟨cell, rest⟩
  · simp [Csv.process_row] at h
  · by_cases hc : cell = ""
    · simp [Csv.process_row, hc] at h
    · rcases ht : Csv.process_row_try env (pyStrip cell) with ⟨res, ops2⟩
      rcases res with e | recd
      · have hr : r = Csv.exceptRecord (pyStrip cell) := by
          simp only [Csv.process_row, ht] at h
          rw [if_neg (by simpa using hc), Prod.mk.injEq] at h
          exact (Option.some.inj h.1).symm
        subst hr
        exact ⟨le_refl 0, by show (0 : Int) ≤ 100; norm_num⟩
      · have hr : r = recd := by
          simp only [Csv.process_row, ht] at h
          rw [if_neg (by simpa using hc), Prod.mk.injEq] at h
          exact (Option.some.inj h.1).symm
        rw [hr]
        exact Csv.try_score_bounds env (pyStrip cell) recd ops2 ht

/-- Any record the streamlit `process_row` returns has score in [0, 100]. -/
theorem App.row_score_bounds_app (env : App.RowEnv) (email : String)
    (r : AuditRecord) (ops : List NetOp)
    (h : App.process_row env email = (r, ops)) :
    0 ≤ r.score ∧ r.score ≤ 100 := by
  rcases hv : env.validate with e | dom
  · rcases e <;>
      · simp only [App.process_row, hv, Prod.mk.injEq] at h
        obtain ⟨rfl, -⟩ := h
        exact ⟨le_refl 0, by show (0 : Int) ≤ 100; norm_num⟩
  · rcases hf : env.internalFault
    · simp only [App.process_row, hv, hf, Bool.false_eq_true, if_false,
        Prod.mk.injEq] at h
      obtain ⟨rfl, -⟩ := h
      refine ⟨le_max_left 0 _, max_le (by norm_num) ?_⟩
      split_ifs <;> omega
    · simp only [App.process_row, hv, hf, if_true, Prod.mk.injEq] at h
      obtain ⟨rfl, -⟩ := h
      exact ⟨le_refl 0, by show (0 : Int) ≤ 100; norm_num⟩

/-- C7: for every environment and input, the score of every record either
variant produces lies in [0, 100] — the weight sum never exceeds
20+10+10+10+50 = 100, and the max(0, ·) floor absorbs the −30 penalty. -/
theorem C7_score_range (cenv : Csv.RowEnv) (aenv : App.RowEnv)
    (row : List String) (email : String) (r1 r2 : AuditRecord)
    (ops1 ops2 : List NetOp)
    (h1 : Csv.process_row cenv row = (some r1, ops1))
    (h2 : App.process_row aenv email = (r2, ops2)) :
    0 ≤ r1.score ∧ r1.score ≤ 100 ∧ 0 ≤ r2.score ∧ r2.score ≤ 100 := by
  obtain ⟨a, b⟩ := Csv.row_score_bounds_csv cenv row r1 ops1 h1
  obtain ⟨c, d⟩ := App.row_score_bounds_app aenv email r2 ops2 h2
  exact ⟨a, b, c, d⟩

/-- C7 (witness). -/
theorem C7_score_range_witness :
    0 ≤ bobRecordCsv.score ∧ bobRecordCsv.score ≤ 100 ∧
    0 ≤ bobRecordApp.score ∧ bobRecordApp.score ≤ 100 :=
  C7_score_range googleRowEnv googleRowEnvApp ["bob@gmail.com"] "bob@gmail.com"
    bobRecordCsv bobRecordApp [NetOp.dnsAudit] [NetOp.dnsAudit]
    (by decide) (by decide)

/-- Membership characterization of the CSV Valid group. -/
theorem Csv.mem_valid_data (results : List (Option AuditRecord))
    (r : AuditRecord) :
    r ∈ Csv.valid_data results ↔ some r ∈ results ∧ 51 ≤ r.score := by
  simp only [Csv.valid_data, List.mem_filterMap, Option.bind_eq_some]
  constructor
  · rintro ⟨o, ho, q, rfl, hq⟩
    split_ifs at hq with h
    obtain rfl := Option.some.inj hq
    exact ⟨ho, by omega⟩
  · rintro ⟨ho, hs⟩
    exact ⟨some r, ho, r, rfl, by rw [if_pos (by omega)]⟩

/-- Membership characterization of the CSV Risky group. -/
theorem Csv.mem_risky_data (results : List (Option AuditRecord))
    (r : AuditRecord) :
    r ∈ Csv.risky_data results ↔ some r ∈ results ∧ 0 < r.score ∧ r.score < 51 := by
  simp only [Csv.risky_data, List.mem_filterMap, Option.bind_eq_some]
  constructor
  · rintro ⟨o, ho, q, rfl, hq⟩
    split_ifs at hq with h
    obtain rfl := Option.some.inj hq
    exact ⟨ho, by omega⟩
  · rintro ⟨ho, hs⟩
    exact ⟨some r, ho, r, rfl, by rw [if_pos (by omega : 0 < r.score ∧ r.score ≤ 50)]⟩

/-- Membership characterization of the streamlit Valid group. -/
theorem App.mem_valid_df (recs : List AuditRecord) (r : AuditRecord) :
    r ∈ App.valid_df recs ↔ r ∈ recs ∧ 70 ≤ r.score := by
  simp [App.valid_df, List.mem_filter]

/-- Membership characterization of the streamlit Risky group. -/
theorem App.mem_risky_df (recs : List AuditRecord) (r : AuditRecord) :
    r ∈ App.risky_df recs ↔ r ∈ recs ∧ 0 < r.score ∧ r.score < 70 := by
  simp only [App.risky_df, List.mem_filter, Bool.and_eq_true, decide_eq_true_eq]
  tauto

/-- The three CSV groups cover each non-`None` record exactly once. -/
theorem Csv.seg_count_csv (results : List (Option AuditRecord))
    (hnn : ∀ q : AuditRecord, some q ∈ results → 0 ≤ q.score) :
    (Csv.valid_data results).length + (Csv.risky_data results).length
      + Csv.deleted_count results = (results.filterMap id).length := by
  induction results with
  | nil => rfl
  | cons o t ih =>
    have ht : ∀ q : AuditRecord, some q ∈ t → 0 ≤ q.score :=
      fun q hq => hnn q (List.mem_cons_of_mem _ hq)
    have ih' := ih ht
    rcases o with _ | q
    · simpa [Csv.valid_data, Csv.risky_data, Csv.deleted_count,
        List.filterMap_cons] using ih'
    · have hq : 0 ≤ q.score := hnn q (List.mem_cons_self _ _)
      simp only [Csv.valid_data, Csv.risky_data, Csv.deleted_count] at ih'
      simp only [Csv.valid_data, Csv.risky_data, Csv.deleted_count,
        List.filterMap_cons, Option.some_bind, id_eq]
      by_cases h1 : 50 < q.score
      · rw [if_pos h1, if_neg (by omega : ¬(0 < q.score ∧ q.score ≤ 50)),
          if_neg (by omega : ¬q.score = 0)]
        simp only [List.length_cons]
        omega
      · by_cases h2 : 0 < q.score
        · rw [if_neg h1, if_pos (by omega : 0 < q.score ∧ q.score ≤ 50),
            if_neg (by omega : ¬q.score = 0)]
          simp only [List.length_cons]
          omega
        · rw [if_neg h1, if_neg (by omega : ¬(0 < q.score ∧ q.score ≤ 50)),
            if_pos (by omega : q.score = 0)]
          simp only [List.length_cons]
          omega

/-- The three streamlit groups cover each record exactly once. -/
theorem App.seg_count_app (recs : List AuditRecord)
    (hnn : ∀ q ∈ recs, 0 ≤ q.score) :
    (App.valid_df recs).length + (App.risky_df recs).length
      + App.dead_count recs = recs.length := by
  induction recs with
  | nil => rfl
  | cons q t ih =>
    have ht : ∀ p ∈ t, 0 ≤ p.score := fun p hp => hnn p (List.mem_cons_of_mem _ hp)
    have ih' := ih ht
    have hq : 0 ≤ q.score := hnn q (List.mem_cons_self _ _)
    simp only [App.valid_df, App.risky_df, App.dead_count] at ih'
    simp only [App.valid_df, App.risky_df, App.dead_count, List.filter_cons]
    by_cases h1 : 70 ≤ q.score
    · rw [if_pos (by simpa using h1), if_neg (by simp; omega),
        if_neg (by simp; omega)]
      simp only [List.length_cons]
      omega
    · by_cases h2 : 0 < q.score
      · rw [if_neg (by simp; omega), if_pos (by simp; omega),
          if_neg (by simp; omega)]
        simp only [List.length_cons]
        omega
      · rw [if_neg (by simp; omega), if_neg (by simp; omega),
          if_pos (by simp; omega)]
        simp only [List.length_cons]
        omega

/-- C3: segmentation is a partition in both variants.  Membership in the
Valid and Risky groups is exactly a threshold condition on the score (CSV:
Valid ⟺ score ≥ 51, Risky ⟺ 0 < score < 51; streamlit: Valid ⟺ score ≥ 70,
Risky ⟺ 0 < score < 70), the Valid and Risky groups are disjoint and exclude
score 0, and for score-nonnegative batches the three groups together count
every record exactly once. -/
theorem C3_segmentation (results : List (Option AuditRecord))
    (recs : List AuditRecord) (r : AuditRecord)
    (hnn : ∀ q : AuditRecord, some q ∈ results → 0 ≤ q.score)
    (hnn2 : ∀ q ∈ recs, 0 ≤ q.score) :
    (r ∈ Csv.valid_data results ↔ some r ∈ results ∧ 51 ≤ r.score) ∧
    (r ∈ Csv.risky_data results ↔ some r ∈ results ∧ 0 < r.score ∧ r.score < 51) ∧
    ((Csv.valid_data results).length + (Csv.risky_data results).length
        + Csv.deleted_count results = (results.filterMap id).length) ∧
    (r ∈ App.valid_df recs ↔ r ∈ recs ∧ 70 ≤ r.score) ∧
    (r ∈ App.risky_df recs ↔ r ∈ recs ∧ 0 < r.score ∧ r.score < 70) ∧
    ((App.valid_df recs).length + (App.risky_df recs).length
        + App.dead_count recs = recs.length) ∧
    ¬(r ∈ Csv.valid_data results ∧ r ∈ Csv.risky_data results) ∧
    (r ∈ Csv.valid_data results ∨ r ∈ Csv.risky_data results → r.score ≠ 0) ∧
    ¬(r ∈ App.valid_df recs ∧ r ∈ App.risky_df recs) ∧
    (r ∈ App.valid_df recs ∨ r ∈ App.risky_df recs → r.score ≠ 0) := by
  refine ⟨Csv.mem_valid_data results r, Csv.mem_risky_data results r,
    Csv.seg_count_csv results hnn, App.mem_valid_df recs r,
    App.mem_risky_df recs r, App.seg_count_app recs hnn2, ?_, ?_, ?_, ?_⟩
  · rintro ⟨hv, hr⟩
    have a := (Csv.mem_valid_data results r).mp hv
    have b := (Csv.mem_risky_data results r).mp hr
    omega
  · rintro (hv | hr)
    · have a := (Csv.mem_valid_data results r).mp hv
      omega
    · have a := (Csv.mem_risky_data results r).mp hr
      omega
  · rintro ⟨hv, hr⟩
    have a := (App.mem_valid_df recs r).mp hv
    have b := (App.mem_risky_df recs r).mp hr
    omega
  · rintro (hv | hr)
    · have a := (App.mem_valid_df recs r).mp hv
      omega
    · have a := (App.mem_risky_df recs r).mp hr
      omega

/-- C3 (witness). -/
theorem C3_segmentation_witness :
    (bobRecordCsv ∈ Csv.valid_data [some bobRecordCsv]
        ↔ some bobRecordCsv ∈ [some bobRecordCsv] ∧ 51 ≤ bobRecordCsv.score) ∧
    ((Csv.valid_data [some bobRecordCsv]).length
        + (Csv.risky_data [some bobRecordCsv]).length
        + Csv.deleted_count [some bobRecordCsv]
        = ([some bobRecordCsv].filterMap id).length) ∧
    ((App.valid_df [bobRecordApp]).length + (App.risky_df [bobRecordApp]).length
        + App.dead_count [bobRecordApp] = [bobRecordApp].length) := by
  have h := C3_segmentation [some bobRecordCsv] [bobRecordApp] bobRecordCsv
    (fun q hq => by
      have hq' : some q = some bobRecordCsv := List.mem_singleton.mp hq
      obtain rfl := Option.some.inj hq'
      decide)
    (fun q hq => by
      obtain rfl := List.mem_singleton.mp hq
      decide)
  exact ⟨h.1, h.2.2.1, h.2.2.2.2.2.1⟩
